import Mathlib

set_option autoImplicit false

namespace ILGPU

/-
Shallow embedding of the ILGPU native interoperability bridge:
`Src/ILGPU.LLVM/Extensions.cpp` (NVVM reflect-pass bridge) and the
`Src/ILGPU.Lightning.Native/Cuda` headers (CUB primitive-operation bridge).
Opaque external handles (module, function, global value, stream, device
pointers) are modelled as natural-number addresses, with `0` playing the
role of the C null pointer. Machine integers are modelled as `Int`/`Nat`
with explicit twos-complement reinterpretation where a cast matters.
-/

/-- The LLVM `LLVMBool` is a C `int`: any nonzero value is truthy. -/
abbrev LLVMBool := Int

/-- Insertion-ordered string-map update, mirroring assignment through
`StringMap<int>::operator[]` in `CreateNVVMReflectPass`. -/
def stringMapSet : List (String × Int) → String → Int → List (String × Int)
  | [], k, v => [(k, v)]
  | (k1, v1) :: rest, k, v =>
      if k1 = k then (k1, v) :: rest else (k1, v1) :: stringMapSet rest k v

/-- The substitution mapping built by `CreateNVVMReflectPass`
(Extensions.cpp, lines 33-44): `ftz` nonzero inserts `__CUDA_FTZ = 1`;
`fm` nonzero inserts `__CUDA_PREC_DIV = 0` and `__CUDA_PREC_SQRT = 0`. -/
def nvvmReflectMapping (ftz fm : LLVMBool) : List (String × Int) :=
  let m0 : List (String × Int) := []
  let m1 := if ftz ≠ 0 then stringMapSet m0 "__CUDA_FTZ" 1 else m0
  if fm ≠ 0 then
    stringMapSet (stringMapSet m1 "__CUDA_PREC_DIV" 0) "__CUDA_PREC_SQRT" 0
  else m1

/-- An LLVM global value as the bridge sees it: its address (pointer
identity) and its symbol name. -/
structure GlobalVal where
  addr : Nat
  name : String
  deriving DecidableEq, Repr

/-- The passes the bridge ever adds to an LLVM pass manager. -/
inductive Pass where
  | internalize (keep : GlobalVal → Bool)
  | globalDCE
  | reflect (mapping : List (String × Int))

/-- `CreateNVVMReflectPass` (Extensions.cpp): builds the NVVM reflect pass
carrying the flag-determined substitution mapping. -/
def CreateNVVMReflectPass (ftz fm : LLVMBool) : Pass :=
  Pass.reflect (nvvmReflectMapping ftz fm)

/-- `pm.add(pass)`: a legacy pass manager accumulates passes in order. -/
def pmAdd (passes : List Pass) (p : Pass) : List Pass :=
  passes ++ [p]

/-- The internalization predicate built inside `ILGPU_PreparePTXModule`
(Extensions.cpp, lines 67-70): `&val == entryPoint`, a pointer-identity
comparison against the unwrapped entry handle. -/
def internalizePredicate (entryPoint : Nat) : GlobalVal → Bool :=
  fun val => val.addr == entryPoint

/-- A module state over abstract function bodies `β`: the functions (by
address) and the other global values of the module. -/
structure ModuleState (β : Type) where
  functions : List (Nat × β)
  globals : List GlobalVal

/-- Interpretations of the external LLVM passes (their IR transformations
live in LLVM, not in this repository; the bridge only composes them). -/
structure PassInterp (β : Type) where
  internalizeRun : (GlobalVal → Bool) → ModuleState β → ModuleState β
  globalDCERun : ModuleState β → ModuleState β
  reflectRun : List (String × Int) → ModuleState β → ModuleState β
  reflectRunOnFunction : List (String × Int) → β → β

/-- Module-level pass application (legacy `PassManager::run`). -/
def runPass {β : Type} (I : PassInterp β) : Pass → ModuleState β → ModuleState β
  | Pass.internalize keep, m => I.internalizeRun keep m
  | Pass.globalDCE, m => I.globalDCERun m
  | Pass.reflect mapping, m => I.reflectRun mapping m

/-- A legacy `PassManager` runs its accumulated passes left to right. -/
def runPM {β : Type} (I : PassInterp β) (passes : List Pass) (m : ModuleState β) :
    ModuleState β :=
  passes.foldl (fun acc p => runPass I p acc) m

/-- Modelled from the spec: the legacy LLVM `FunctionPassManager` (external,
not among the sources of this repository) runs each added function pass scoped
to the one function it is invoked on, mutating only the body of that function.
Module passes are not applicable in a function pass manager. -/
def runFunctionPass {β : Type} (I : PassInterp β) : Pass → β → β
  | Pass.reflect mapping, b => I.reflectRunOnFunction mapping b
  | Pass.internalize _, b => b
  | Pass.globalDCE, b => b

/-- The function pass pipeline assembled by
`ILGPU_RunNVVMReflectPassOnFunction` (Extensions.cpp, lines 48-54). -/
def runOnFunctionPipeline (ftz fm : LLVMBool) : List Pass :=
  pmAdd [] (CreateNVVMReflectPass ftz fm)

/-- `ILGPU_RunNVVMReflectPassOnFunction` (Extensions.cpp, lines 48-54):
builds a function pass manager holding the reflect pass and runs it on the
single supplied function; the rest of the module is not visited. The C
function returns `void`; its effect is the new module state. -/
def ILGPU_RunNVVMReflectPassOnFunction {β : Type} (I : PassInterp β)
    (m : ModuleState β) (func : Nat) (ftz fm : LLVMBool) : ModuleState β :=
  { m with
    functions := m.functions.map fun p =>
      if p.1 = func then
        (p.1, (runOnFunctionPipeline ftz fm).foldl
          (fun b pass => runFunctionPass I pass b) p.2)
      else p }

/-- The pipeline assembled by `ILGPU_RunNVVMReflectPass`
(Extensions.cpp, lines 56-61). -/
def runOnModulePipeline (ftz fm : LLVMBool) : List Pass :=
  pmAdd [] (CreateNVVMReflectPass ftz fm)

/-- `ILGPU_RunNVVMReflectPass` (Extensions.cpp, lines 56-61): runs the
reflect pass module-wide. -/
def ILGPU_RunNVVMReflectPass {β : Type} (I : PassInterp β) (m : ModuleState β)
    (ftz fm : LLVMBool) : ModuleState β :=
  runPM I (runOnModulePipeline ftz fm) m

/-- The three-pass pipeline assembled by `ILGPU_PreparePTXModule`
(Extensions.cpp, lines 63-74): internalize (keeping only the entry point),
then global dead-code elimination, then the reflect pass. -/
def preparePTXPipeline (entryPoint : Nat) (ftz fm : LLVMBool) : List Pass :=
  pmAdd (pmAdd (pmAdd [] (Pass.internalize (internalizePredicate entryPoint)))
    Pass.globalDCE) (CreateNVVMReflectPass ftz fm)

/-- `ILGPU_PreparePTXModule` (Extensions.cpp, lines 63-74): runs the
three-pass pipeline on the module. The C function returns `void`. -/
def ILGPU_PreparePTXModule {β : Type} (I : PassInterp β) (m : ModuleState β)
    (entryPoint : Nat) (ftz fm : LLVMBool) : ModuleState β :=
  runPM I (preparePTXPipeline entryPoint ftz fm) m

/-
CUB primitive-operation bridge. The MAKE_... macro of each header stamps out one
exported C function per (element type, ordering, payload mode); all
instantiations share one body, so each macro family is embedded as one
generic definition. Device pointers are addresses (`Nat`, `0` = null);
`size_t` cells live in a `SizeHeap`; buffer contents live in a `BufHeap`.
A dereference of an unmapped or null address is undefined behavior,
modelled as `none`.
-/

/-- Heap of `size_t` cells, by address. -/
abbrev SizeHeap := Nat → Option Nat

/-- Heap of device buffers, by address. -/
abbrev BufHeap := Nat → Option (List Int)

/-- Dereference a `size_t*`: faults (`none`) on null or unmapped. -/
def derefSize (h : SizeHeap) (p : Nat) : Option Nat :=
  if p = 0 then none else h p

/-- Store through a `size_t*` cell. -/
def writeSize (h : SizeHeap) (p : Nat) (v : Nat) : SizeHeap :=
  fun q => if q = p then some v else h q

/-- The C cast `(int)` applied to a `uint32_t` value: twos-complement
reinterpretation of the 32-bit pattern. -/
def intOfUInt32 (n : Nat) : Int :=
  if n < 2 ^ 31 then (n : Int) else (n : Int) - 2 ^ 32

/-- Arguments of a `Cuda[Descending]<variant>RadixSort<type>` export
(RadixSort.h, MAKE_RADIXSORT_GEN signature order). -/
structure SortArgs where
  tempStorage : Nat
  tempStorageSize : Nat
  source : Nat
  target : Nat
  numElements : Int
  beginBit : Int
  endBit : Int
  stream : Nat
  deriving DecidableEq, Repr

/-- The external call a radix-sort export makes:
`cub::DeviceRadixSort::<cubName><prefix>(...)`. `descending` records which
primitive the `prefix` token selects; `tempStorageSizeVal` is the value the
bridge read through `tempStorageSize` (passed by reference to CUB). -/
structure ExtSortCall where
  descending : Bool
  tempStorage : Nat
  tempStorageSizeVal : Nat
  source : Nat
  target : Nat
  numElements : Int
  beginBit : Int
  endBit : Int
  stream : Nat
  deriving DecidableEq, Repr

/-- An external primitive: given the call and the buffer heap it returns
the status code, the scratch size it writes back through the size
reference, and the buffer heap after any device work. -/
abbrev SortOracle := ExtSortCall → BufHeap → Int × Nat × BufHeap

/-- The argument record `MAKE_RADIXSORT_GEN` forwards, given the
dereferenced scratch-size value. -/
def mkSortCall (descending : Bool) (a : SortArgs) (sz : Nat) : ExtSortCall :=
  { descending := descending
    tempStorage := a.tempStorage
    tempStorageSizeVal := sz
    source := a.source
    target := a.target
    numElements := a.numElements
    beginBit := a.beginBit
    endBit := a.endBit
    stream := a.stream }

/-- Body of every `MAKE_RADIXSORT_GEN` export (RadixSort.h, lines 27-47):
dereference `*tempStorageSize`, make the single external call, return its
status. The call trace is exposed as the last component. -/
def CudaRadixSortGen (cubSort : SortOracle) (descending : Bool) (a : SortArgs)
    (sizes : SizeHeap) (bufs : BufHeap) :
    Option (Int × SizeHeap × BufHeap × List ExtSortCall) :=
  match derefSize sizes a.tempStorageSize with
  | none => none
  | some sz =>
      let call := mkSortCall descending a sz
      let r := cubSort call bufs
      some (r.1, writeSize sizes a.tempStorageSize r.2.1, r.2.2, [call])

/-- Arguments of a `Cuda[Descending]<variant>RadixSort<type>IndexPairs`
export (RadixSortPairs.h signature order). -/
structure SortPairsArgs where
  tempStorage : Nat
  tempStorageSize : Nat
  source : Nat
  target : Nat
  valuesSource : Nat
  valuesTarget : Nat
  numElements : Int
  beginBit : Int
  endBit : Int
  stream : Nat
  deriving DecidableEq, Repr

/-- The external call a radix-sort-pairs export makes. -/
structure ExtSortPairsCall where
  descending : Bool
  tempStorage : Nat
  tempStorageSizeVal : Nat
  source : Nat
  target : Nat
  valuesSource : Nat
  valuesTarget : Nat
  numElements : Int
  beginBit : Int
  endBit : Int
  stream : Nat
  deriving DecidableEq, Repr

/-- External pairs-sort primitive. -/
abbrev SortPairsOracle := ExtSortPairsCall → BufHeap → Int × Nat × BufHeap

/-- The argument record `MAKE_RADIXSORT_GEN` (pairs version) forwards. -/
def mkSortPairsCall (descending : Bool) (a : SortPairsArgs) (sz : Nat) :
    ExtSortPairsCall :=
  { descending := descending
    tempStorage := a.tempStorage
    tempStorageSizeVal := sz
    source := a.source
    target := a.target
    valuesSource := a.valuesSource
    valuesTarget := a.valuesTarget
    numElements := a.numElements
    beginBit := a.beginBit
    endBit := a.endBit
    stream := a.stream }

/-- Body of every `MAKE_RADIXSORT_GEN` pairs export (RadixSortPairs.h). -/
def CudaRadixSortPairsGen (cubSort : SortPairsOracle) (descending : Bool)
    (a : SortPairsArgs) (sizes : SizeHeap) (bufs : BufHeap) :
    Option (Int × SizeHeap × BufHeap × List ExtSortPairsCall) :=
  match derefSize sizes a.tempStorageSize with
  | none => none
  | some sz =>
      let call := mkSortPairsCall descending a sz
      let r := cubSort call bufs
      some (r.1, writeSize sizes a.tempStorageSize r.2.1, r.2.2, [call])

/-- Arguments of a `CudaSegmented[Descending]<variant>RadixSort<type>`
export (SegmentedRadixSort.h signature order: `numElements`,
`beginOffsets`, `endOffsets`, `numSegments`). -/
structure SegSortArgs where
  tempStorage : Nat
  tempStorageSize : Nat
  source : Nat
  target : Nat
  numElements : Int
  beginOffsets : Nat
  endOffsets : Nat
  numSegments : Int
  beginBit : Int
  endBit : Int
  stream : Nat
  deriving DecidableEq, Repr

/-- The external call a segmented radix-sort export makes
(`cub::DeviceSegmentedRadixSort::<cubName><prefix>` parameter order:
`numElements`, `numSegments`, `beginOffsets`, `endOffsets`). -/
structure ExtSegSortCall where
  descending : Bool
  tempStorage : Nat
  tempStorageSizeVal : Nat
  source : Nat
  target : Nat
  numElements : Int
  numSegments : Int
  beginOffsets : Nat
  endOffsets : Nat
  beginBit : Int
  endBit : Int
  stream : Nat
  deriving DecidableEq, Repr

/-- External segmented-sort primitive. -/
abbrev SegSortOracle := ExtSegSortCall → BufHeap → Int × Nat × BufHeap

/-- The argument record `MAKE_SEGMENTED_RADIXSORT_GEN` forwards
(SegmentedRadixSort.h, lines 41-53). -/
def mkSegSortCall (descending : Bool) (a : SegSortArgs) (sz : Nat) :
    ExtSegSortCall :=
  { descending := descending
    tempStorage := a.tempStorage
    tempStorageSizeVal := sz
    source := a.source
    target := a.target
    numElements := a.numElements
    numSegments := a.numSegments
    beginOffsets := a.beginOffsets
    endOffsets := a.endOffsets
    beginBit := a.beginBit
    endBit := a.endBit
    stream := a.stream }

/-- Body of every `MAKE_SEGMENTED_RADIXSORT_GEN` export
(SegmentedRadixSort.h, lines 27-53). -/
def CudaSegmentedRadixSortGen (cubSort : SegSortOracle) (descending : Bool)
    (a : SegSortArgs) (sizes : SizeHeap) (bufs : BufHeap) :
    Option (Int × SizeHeap × BufHeap × List ExtSegSortCall) :=
  match derefSize sizes a.tempStorageSize with
  | none => none
  | some sz =>
      let call := mkSegSortCall descending a sz
      let r := cubSort call bufs
      some (r.1, writeSize sizes a.tempStorageSize r.2.1, r.2.2, [call])

/-- Arguments of a
`CudaSegmented[Descending]<variant>RadixSort<type>IndexPairs` export
(SegmentedRadixSortPairs.h signature order). -/
structure SegSortPairsArgs where
  tempStorage : Nat
  tempStorageSize : Nat
  source : Nat
  target : Nat
  valuesSource : Nat
  valuesTarget : Nat
  numElements : Int
  beginOffsets : Nat
  endOffsets : Nat
  numSegments : Int
  beginBit : Int
  endBit : Int
  stream : Nat
  deriving DecidableEq, Repr

/-- The external call a segmented pairs export makes. -/
structure ExtSegSortPairsCall where
  descending : Bool
  tempStorage : Nat
  tempStorageSizeVal : Nat
  source : Nat
  target : Nat
  valuesSource : Nat
  valuesTarget : Nat
  numElements : Int
  numSegments : Int
  beginOffsets : Nat
  endOffsets : Nat
  beginBit : Int
  endBit : Int
  stream : Nat
  deriving DecidableEq, Repr

/-- External segmented pairs-sort primitive. -/
abbrev SegSortPairsOracle := ExtSegSortPairsCall → BufHeap → Int × Nat × BufHeap

/-- The argument record `MAKE_SEGMENTED_RADIXSORT_GEN` (pairs version)
forwards (SegmentedRadixSortPairs.h, lines 44-58). -/
def mkSegSortPairsCall (descending : Bool) (a : SegSortPairsArgs) (sz : Nat) :
    ExtSegSortPairsCall :=
  { descending := descending
    tempStorage := a.tempStorage
    tempStorageSizeVal := sz
    source := a.source
    target := a.target
    valuesSource := a.valuesSource
    valuesTarget := a.valuesTarget
    numElements := a.numElements
    numSegments := a.numSegments
    beginOffsets := a.beginOffsets
    endOffsets := a.endOffsets
    beginBit := a.beginBit
    endBit := a.endBit
    stream := a.stream }

/-- Body of every `MAKE_SEGMENTED_RADIXSORT_GEN` pairs export
(SegmentedRadixSortPairs.h, lines 28-58). -/
def CudaSegmentedRadixSortPairsGen (cubSort : SegSortPairsOracle)
    (descending : Bool) (a : SegSortPairsArgs) (sizes : SizeHeap)
    (bufs : BufHeap) :
    Option (Int × SizeHeap × BufHeap × List ExtSegSortPairsCall) :=
  match derefSize sizes a.tempStorageSize with
  | none => none
  | some sz =>
      let call := mkSegSortPairsCall descending a sz
      let r := cubSort call bufs
      some (r.1, writeSize sizes a.tempStorageSize r.2.1, r.2.2, [call])

/-- Arguments of a `Cuda<variant>Scan<type>` export (Scan.h signature
order); `numElements` is declared `uint32_t`, modelled as a `Nat` whose
32-bit range is a hypothesis where it matters. -/
structure ScanArgs where
  tempStorage : Nat
  tempStorageSize : Nat
  source : Nat
  target : Nat
  numElements : Nat
  stream : Nat
  deriving DecidableEq, Repr

/-- The external call a scan export makes:
`cub::DeviceScan::<variant>Sum(...)`. `inclusive` records which primitive
the `variant` token selects; `numElements` is the value after the
`(int)` cast. -/
structure ExtScanCall where
  inclusive : Bool
  tempStorage : Nat
  tempStorageSizeVal : Nat
  source : Nat
  target : Nat
  numElements : Int
  stream : Nat
  deriving DecidableEq, Repr

/-- External scan primitive. -/
abbrev ScanOracle := ExtScanCall → BufHeap → Int × Nat × BufHeap

/-- The argument record `MAKE_SCAN` forwards (Scan.h, lines 36-43):
`(int)numElements` reinterprets the `uint32_t` count as a signed 32-bit
value. -/
def mkScanCall (inclusive : Bool) (a : ScanArgs) (sz : Nat) : ExtScanCall :=
  { inclusive := inclusive
    tempStorage := a.tempStorage
    tempStorageSizeVal := sz
    source := a.source
    target := a.target
    numElements := intOfUInt32 a.numElements
    stream := a.stream }

/-- Body of every `MAKE_SCAN` export (Scan.h, lines 27-43). -/
def CudaScanGen (cubScan : ScanOracle) (inclusive : Bool) (a : ScanArgs)
    (sizes : SizeHeap) (bufs : BufHeap) :
    Option (Int × SizeHeap × BufHeap × List ExtScanCall) :=
  match derefSize sizes a.tempStorageSize with
  | none => none
  | some sz =>
      let call := mkScanCall inclusive a sz
      let r := cubScan call bufs
      some (r.1, writeSize sizes a.tempStorageSize r.2.1, r.2.2, [call])

/-- A positional C argument: a pointer, a signed integer, or a `size_t`
value (the dereferenced scratch size passed by reference). -/
inductive CVal where
  | ptr (a : Nat)
  | intv (v : Int)
  | sizev (n : Nat)
  deriving DecidableEq, Repr

/-- The parameter list of the segmented-sort export, in signature order
(SegmentedRadixSort.h, lines 28-40). -/
def segSortSigArgs (a : SegSortArgs) : List CVal :=
  [CVal.ptr a.tempStorage, CVal.ptr a.tempStorageSize, CVal.ptr a.source,
   CVal.ptr a.target, CVal.intv a.numElements, CVal.ptr a.beginOffsets,
   CVal.ptr a.endOffsets, CVal.intv a.numSegments, CVal.intv a.beginBit,
   CVal.intv a.endBit, CVal.ptr a.stream]

/-- The positional argument list the segmented-sort export passes to the
external primitive, in call-site order (SegmentedRadixSort.h,
lines 41-53). -/
def segSortExtArgs (c : ExtSegSortCall) : List CVal :=
  [CVal.ptr c.tempStorage, CVal.sizev c.tempStorageSizeVal, CVal.ptr c.source,
   CVal.ptr c.target, CVal.intv c.numElements, CVal.intv c.numSegments,
   CVal.ptr c.beginOffsets, CVal.ptr c.endOffsets, CVal.intv c.beginBit,
   CVal.intv c.endBit, CVal.ptr c.stream]

/-- The parameter list of the segmented pairs export, in signature order
(SegmentedRadixSortPairs.h, lines 29-43). -/
def segSortPairsSigArgs (a : SegSortPairsArgs) : List CVal :=
  [CVal.ptr a.tempStorage, CVal.ptr a.tempStorageSize, CVal.ptr a.source,
   CVal.ptr a.target, CVal.ptr a.valuesSource, CVal.ptr a.valuesTarget,
   CVal.intv a.numElements, CVal.ptr a.beginOffsets, CVal.ptr a.endOffsets,
   CVal.intv a.numSegments, CVal.intv a.beginBit, CVal.intv a.endBit,
   CVal.ptr a.stream]

/-- The positional argument list the segmented pairs export passes to the
external primitive, in call-site order (SegmentedRadixSortPairs.h,
lines 44-58). -/
def segSortPairsExtArgs (c : ExtSegSortPairsCall) : List CVal :=
  [CVal.ptr c.tempStorage, CVal.sizev c.tempStorageSizeVal, CVal.ptr c.source,
   CVal.ptr c.target, CVal.ptr c.valuesSource, CVal.ptr c.valuesTarget,
   CVal.intv c.numElements, CVal.intv c.numSegments, CVal.ptr c.beginOffsets,
   CVal.ptr c.endOffsets, CVal.intv c.beginBit, CVal.intv c.endBit,
   CVal.ptr c.stream]

/-- Modelled from the spec: the external CUB device primitives (not part
of the sources of this repository) recognize a null scratch pointer as the
sizing-query mode — the call succeeds (status `0`), reports the required
scratch size through the size reference, and performs no device work, so
the buffer heap is untouched. Execution-mode behavior (non-null scratch)
is the external algorithm and stays abstract (`exec`). -/
def cubSizingOracle {κ : Type} (tempOf : κ → Nat) (sizeFn : κ → Nat)
    (exec : κ → BufHeap → Int × Nat × BufHeap) :
    κ → BufHeap → Int × Nat × BufHeap :=
  fun c bufs => if tempOf c = 0 then (0, sizeFn c, bufs) else exec c bufs

/-
Theorems for the claims.
-/

/-- C1: wherever the bridge constructs the reflect pass — the
function-scoped runner, the module-wide runner, and the deployment
preparation pipeline — the substitution mapping handed to the external
pass is determined exactly by the two flags: any nonzero `ftz` contributes
the single entry `__CUDA_FTZ = 1`; any nonzero `fm` contributes exactly
the two entries `__CUDA_PREC_DIV = 0` and `__CUDA_PREC_SQRT = 0`; both
zero give the empty mapping. -/
theorem reflect_mapping_determined_by_flags (ftz fm : LLVMBool) :
    (∀ k v, (k, v) ∈ nvvmReflectMapping ftz fm ↔
      (ftz ≠ 0 ∧ k = "__CUDA_FTZ" ∧ v = 1) ∨
      (fm ≠ 0 ∧ (k = "__CUDA_PREC_DIV" ∨ k = "__CUDA_PREC_SQRT") ∧ v = 0)) ∧
    (nvvmReflectMapping ftz fm).length =
      (if ftz ≠ 0 then 1 else 0) + (if fm ≠ 0 then 2 else 0) ∧
    (ftz = 0 → fm = 0 → nvvmReflectMapping ftz fm = []) ∧
    runOnFunctionPipeline ftz fm = [Pass.reflect (nvvmReflectMapping ftz fm)] ∧
    runOnModulePipeline ftz fm = [Pass.reflect (nvvmReflectMapping ftz fm)] ∧
    Pass.reflect (nvvmReflectMapping ftz fm) ∈ preparePTXPipeline 0 ftz fm := by
  refine ⟨fun k v => ?_, ?_, fun h1 h2 => ?_, rfl, rfl, ?_⟩
  · by_cases hftz : ftz = 0 <;> by_cases hfm : fm = 0 <;>
      simp [nvvmReflectMapping, stringMapSet, hftz, hfm] <;> tauto
  · by_cases hftz : ftz = 0 <;> by_cases hfm : fm = 0 <;>
      simp [nvvmReflectMapping, stringMapSet, hftz, hfm]
  · simp [nvvmReflectMapping, stringMapSet, h1, h2]
  · simp [preparePTXPipeline, pmAdd, CreateNVVMReflectPass]

/-- C1 witness: concrete evaluation of the mapping characterization at
`ftz = 1`, `fm = 1`. -/
theorem reflect_mapping_determined_by_flags_witness :
    ("__CUDA_PREC_DIV", (0 : Int)) ∈ nvvmReflectMapping 1 1 ∧
    nvvmReflectMapping 0 0 = [] := by
  have h1 := reflect_mapping_determined_by_flags 1 1
  have h0 := reflect_mapping_determined_by_flags 0 0
  exact ⟨(h1.1 "__CUDA_PREC_DIV" 0).mpr (by norm_num),
    h0.2.2.1 rfl rfl⟩

/-- C2: `ILGPU_PreparePTXModule` runs exactly three passes in fixed order:
internalization restricted to the entry point, then global dead-code
elimination, then the flag-configured reflect pass; semantically the
resulting module is the composition in exactly that order, for every
interpretation of the external passes. -/
theorem preparePTXModule_three_pass_pipeline {β : Type} (I : PassInterp β)
    (m : ModuleState β) (e : Nat) (ftz fm : LLVMBool) :
    preparePTXPipeline e ftz fm =
      [Pass.internalize (internalizePredicate e), Pass.globalDCE,
       Pass.reflect (nvvmReflectMapping ftz fm)] ∧
    ILGPU_PreparePTXModule I m e ftz fm =
      I.reflectRun (nvvmReflectMapping ftz fm)
        (I.globalDCERun (I.internalizeRun (internalizePredicate e) m)) :=
  ⟨rfl, rfl⟩

/-- C3: the internalization predicate keeps a global value exactly when it
is pointer-identical to the supplied entry handle; a distinct global that
merely shares the name of the entry point is not kept. -/
theorem internalize_predicate_pointer_identity (e : Nat) (val : GlobalVal) :
    (internalizePredicate e val = true ↔ val.addr = e) ∧
    (∀ entryVal : GlobalVal, entryVal.addr = e → val.name = entryVal.name →
      val.addr ≠ e → internalizePredicate e val = false) := by
  constructor
  · simp [internalizePredicate]
  · intro entryVal _ _ hne
    simp [internalizePredicate, hne]

/-- C3 witness: entry at address 1 named `kernel`; a different global at
address 2 with the same name is not kept, while the entry itself is. -/
theorem internalize_predicate_pointer_identity_witness :
    internalizePredicate 1 ⟨2, "kernel"⟩ = false ∧
    internalizePredicate 1 ⟨1, "kernel"⟩ = true := by
  refine ⟨(internalize_predicate_pointer_identity 1 ⟨2, "kernel"⟩).2
    ⟨1, "kernel"⟩ rfl rfl (by decide), ?_⟩
  exact (internalize_predicate_pointer_identity 1 ⟨1, "kernel"⟩).1.mpr rfl

/-- C7: the function-scoped reflect runner leaves the globals of the module and
every other function unchanged; its only effect is replacing the body of the
supplied function by the result of the external reflect pass, whatever
that external transformation is. The underlying C export returns `void`. -/
theorem runNVVMReflectPassOnFunction_frame {β : Type} (I : PassInterp β)
    (m : ModuleState β) (func : Nat) (ftz fm : LLVMBool) :
    (ILGPU_RunNVVMReflectPassOnFunction I m func ftz fm).globals = m.globals ∧
    (ILGPU_RunNVVMReflectPassOnFunction I m func ftz fm).functions.length =
      m.functions.length ∧
    (∀ p ∈ m.functions, p.1 ≠ func →
      p ∈ (ILGPU_RunNVVMReflectPassOnFunction I m func ftz fm).functions) ∧
    (∀ p ∈ (ILGPU_RunNVVMReflectPassOnFunction I m func ftz fm).functions,
      p.1 ≠ func → p ∈ m.functions) ∧
    (∀ p ∈ m.functions, p.1 = func →
      (p.1, I.reflectRunOnFunction (nvvmReflectMapping ftz fm) p.2) ∈
        (ILGPU_RunNVVMReflectPassOnFunction I m func ftz fm).functions) := by
  unfold ILGPU_RunNVVMReflectPassOnFunction
  refine ⟨rfl, by simp, ?_, ?_, ?_⟩
  · intro p hp hne
    simp only [List.mem_map]
    exact ⟨p, hp, by simp [hne]⟩
  · intro p hp hne
    simp only [List.mem_map] at hp
    obtain ⟨q, hq, hfq⟩ := hp
    by_cases hqf : q.1 = func
    · rw [if_pos hqf] at hfq
      exact absurd (hfq ▸ hqf) hne
    · rw [if_neg hqf] at hfq
      exact hfq ▸ hq
  · intro p hp heq
    simp only [List.mem_map]
    refine ⟨p, hp, ?_⟩
    simp [heq, runOnFunctionPipeline, pmAdd, CreateNVVMReflectPass,
      runFunctionPass]

/-- A concrete interpretation of the external passes, for witnesses. -/
def demoInterp : PassInterp Nat :=
  { internalizeRun := fun _ m => m
    globalDCERun := fun m => m
    reflectRun := fun _ m => m
    reflectRunOnFunction := fun _ b => b + 1 }

/-- A concrete two-function module, for witnesses. -/
def demoModule : ModuleState Nat :=
  { functions := [(1, 10), (2, 20)], globals := [⟨7, "g"⟩] }

/-- C7 witness: running the function-scoped reflect pass on function 1 of
the demo module leaves function 2 untouched and rewrites the body of function 1
through the demo reflect interpretation. -/
theorem runNVVMReflectPassOnFunction_frame_witness :
    (2, 20) ∈ (ILGPU_RunNVVMReflectPassOnFunction demoInterp demoModule
      1 1 0).functions ∧
    (1, 11) ∈ (ILGPU_RunNVVMReflectPassOnFunction demoInterp demoModule
      1 1 0).functions := by
  have h := runNVVMReflectPassOnFunction_frame demoInterp demoModule 1 1 0
  constructor
  · exact h.2.2.1 (2, 20) (by simp [demoModule]) (by decide)
  · have h1 := h.2.2.2.2 (1, 10) (by simp [demoModule]) rfl
    simpa [demoInterp] using h1

/-- C4: every primitive-operation export — sort, sort with index payload,
segmented sort, segmented sort with index payload, and scan, for either
ordering or scan variant — returns exactly the status code of the single
external call it makes, whatever the external primitive returns: the full
result is pinned for every oracle, so there is no translation, retry, or
extra branch around the call, and the call trace has exactly one entry. -/
theorem exports_return_external_status :
    (∀ (cubSort : SortOracle) (descending : Bool) (a : SortArgs)
        (sizes : SizeHeap) (bufs : BufHeap) (sz : Nat),
      derefSize sizes a.tempStorageSize = some sz →
      CudaRadixSortGen cubSort descending a sizes bufs =
        some ((cubSort (mkSortCall descending a sz) bufs).1,
          writeSize sizes a.tempStorageSize
            (cubSort (mkSortCall descending a sz) bufs).2.1,
          (cubSort (mkSortCall descending a sz) bufs).2.2,
          [mkSortCall descending a sz])) ∧
    (∀ (cubSort : SortPairsOracle) (descending : Bool) (a : SortPairsArgs)
        (sizes : SizeHeap) (bufs : BufHeap) (sz : Nat),
      derefSize sizes a.tempStorageSize = some sz →
      CudaRadixSortPairsGen cubSort descending a sizes bufs =
        some ((cubSort (mkSortPairsCall descending a sz) bufs).1,
          writeSize sizes a.tempStorageSize
            (cubSort (mkSortPairsCall descending a sz) bufs).2.1,
          (cubSort (mkSortPairsCall descending a sz) bufs).2.2,
          [mkSortPairsCall descending a sz])) ∧
    (∀ (cubSort : SegSortOracle) (descending : Bool) (a : SegSortArgs)
        (sizes : SizeHeap) (bufs : BufHeap) (sz : Nat),
      derefSize sizes a.tempStorageSize = some sz →
      CudaSegmentedRadixSortGen cubSort descending a sizes bufs =
        some ((cubSort (mkSegSortCall descending a sz) bufs).1,
          writeSize sizes a.tempStorageSize
            (cubSort (mkSegSortCall descending a sz) bufs).2.1,
          (cubSort (mkSegSortCall descending a sz) bufs).2.2,
          [mkSegSortCall descending a sz])) ∧
    (∀ (cubSort : SegSortPairsOracle) (descending : Bool)
        (a : SegSortPairsArgs) (sizes : SizeHeap) (bufs : BufHeap) (sz : Nat),
      derefSize sizes a.tempStorageSize = some sz →
      CudaSegmentedRadixSortPairsGen cubSort descending a sizes bufs =
        some ((cubSort (mkSegSortPairsCall descending a sz) bufs).1,
          writeSize sizes a.tempStorageSize
            (cubSort (mkSegSortPairsCall descending a sz) bufs).2.1,
          (cubSort (mkSegSortPairsCall descending a sz) bufs).2.2,
          [mkSegSortPairsCall descending a sz])) ∧
    (∀ (cubScan : ScanOracle) (inclusive : Bool) (a : ScanArgs)
        (sizes : SizeHeap) (bufs : BufHeap) (sz : Nat),
      derefSize sizes a.tempStorageSize = some sz →
      CudaScanGen cubScan inclusive a sizes bufs =
        some ((cubScan (mkScanCall inclusive a sz) bufs).1,
          writeSize sizes a.tempStorageSize
            (cubScan (mkScanCall inclusive a sz) bufs).2.1,
          (cubScan (mkScanCall inclusive a sz) bufs).2.2,
          [mkScanCall inclusive a sz])) := by
  refine ⟨?_, ?_, ?_, ?_, ?_⟩ <;>
    · intro cub d a sizes bufs sz h
      simp [CudaRadixSortGen, CudaRadixSortPairsGen, CudaSegmentedRadixSortGen,
        CudaSegmentedRadixSortPairsGen, CudaScanGen, h]

/-- Concrete fixtures for witnesses: a scratch-size cell at address 1
holding 0, an empty buffer heap, constant external primitives returning
status 7 and scratch size 64, and one argument record per family. -/
def demoSizes : SizeHeap := fun p => if p = 1 then some 0 else none

/-- Empty buffer heap fixture. -/
def demoBufs : BufHeap := fun _ => none

/-- Constant sort primitive fixture. -/
def demoSortOracle : SortOracle := fun _ bufs => (7, 64, bufs)

/-- Constant pairs-sort primitive fixture. -/
def demoSortPairsOracle : SortPairsOracle := fun _ bufs => (7, 64, bufs)

/-- Constant segmented-sort primitive fixture. -/
def demoSegSortOracle : SegSortOracle := fun _ bufs => (7, 64, bufs)

/-- Constant segmented pairs-sort primitive fixture. -/
def demoSegSortPairsOracle : SegSortPairsOracle := fun _ bufs => (7, 64, bufs)

/-- Constant scan primitive fixture. -/
def demoScanOracle : ScanOracle := fun _ bufs => (7, 64, bufs)

/-- Sort argument fixture. -/
def demoSortArgs : SortArgs := ⟨0, 1, 2, 3, 5, 0, 32, 0⟩

/-- Pairs-sort argument fixture. -/
def demoSortPairsArgs : SortPairsArgs := ⟨0, 1, 2, 3, 4, 5, 5, 0, 32, 0⟩

/-- Segmented-sort argument fixture. -/
def demoSegSortArgs : SegSortArgs := ⟨0, 1, 2, 3, 6, 4, 5, 2, 0, 32, 0⟩

/-- Segmented pairs-sort argument fixture. -/
def demoSegSortPairsArgs : SegSortPairsArgs :=
  ⟨0, 1, 2, 3, 4, 5, 6, 8, 9, 2, 0, 32, 0⟩

/-- Scan argument fixture. -/
def demoScanArgs : ScanArgs := ⟨0, 1, 2, 3, 4, 0⟩

/-- C4 witness: each export family evaluated on the concrete fixtures
returns status 7 of the constant oracle and writes its reported size 64. -/
theorem exports_return_external_status_witness :
    CudaRadixSortGen demoSortOracle false demoSortArgs demoSizes demoBufs =
      some (7, writeSize demoSizes 1 64, demoBufs,
        [mkSortCall false demoSortArgs 0]) ∧
    CudaRadixSortPairsGen demoSortPairsOracle false demoSortPairsArgs
        demoSizes demoBufs =
      some (7, writeSize demoSizes 1 64, demoBufs,
        [mkSortPairsCall false demoSortPairsArgs 0]) ∧
    CudaSegmentedRadixSortGen demoSegSortOracle false demoSegSortArgs
        demoSizes demoBufs =
      some (7, writeSize demoSizes 1 64, demoBufs,
        [mkSegSortCall false demoSegSortArgs 0]) ∧
    CudaSegmentedRadixSortPairsGen demoSegSortPairsOracle false
        demoSegSortPairsArgs demoSizes demoBufs =
      some (7, writeSize demoSizes 1 64, demoBufs,
        [mkSegSortPairsCall false demoSegSortPairsArgs 0]) ∧
    CudaScanGen demoScanOracle false demoScanArgs demoSizes demoBufs =
      some (7, writeSize demoSizes 1 64, demoBufs,
        [mkScanCall false demoScanArgs 0]) := by
  have h := exports_return_external_status
  exact ⟨h.1 demoSortOracle false demoSortArgs demoSizes demoBufs 0 rfl,
    h.2.1 demoSortPairsOracle false demoSortPairsArgs demoSizes demoBufs 0 rfl,
    h.2.2.1 demoSegSortOracle false demoSegSortArgs demoSizes demoBufs 0 rfl,
    h.2.2.2.1 demoSegSortPairsOracle false demoSegSortPairsArgs demoSizes
      demoBufs 0 rfl,
    h.2.2.2.2 demoScanOracle false demoScanArgs demoSizes demoBufs 0 rfl⟩

/-- C5: in sizing-query mode (null scratch pointer) every sort-family
export — plain, index-payload, segmented, segmented index-payload, either
ordering — returns the success status 0, writes a strictly positive
required scratch size into the scratch-size cell, and leaves the buffer
heap (source and target) untouched, for every positive element count,
under the spec-modelled external sizing behavior. -/
theorem sizing_query_mode_succeeds :
    (∀ (sizeFn : ExtSortCall → Nat)
        (exec : ExtSortCall → BufHeap → Int × Nat × BufHeap)
        (descending : Bool) (a : SortArgs) (sizes : SizeHeap) (bufs : BufHeap)
        (sz : Nat),
      (∀ c : ExtSortCall, 0 < c.numElements → 0 < sizeFn c) →
      a.tempStorage = 0 → 0 < a.numElements →
      derefSize sizes a.tempStorageSize = some sz →
      CudaRadixSortGen (cubSizingOracle ExtSortCall.tempStorage sizeFn exec)
          descending a sizes bufs =
        some (0, writeSize sizes a.tempStorageSize
            (sizeFn (mkSortCall descending a sz)), bufs,
          [mkSortCall descending a sz]) ∧
      writeSize sizes a.tempStorageSize (sizeFn (mkSortCall descending a sz))
          a.tempStorageSize = some (sizeFn (mkSortCall descending a sz)) ∧
      0 < sizeFn (mkSortCall descending a sz)) ∧
    (∀ (sizeFn : ExtSortPairsCall → Nat)
        (exec : ExtSortPairsCall → BufHeap → Int × Nat × BufHeap)
        (descending : Bool) (a : SortPairsArgs) (sizes : SizeHeap)
        (bufs : BufHeap) (sz : Nat),
      (∀ c : ExtSortPairsCall, 0 < c.numElements → 0 < sizeFn c) →
      a.tempStorage = 0 → 0 < a.numElements →
      derefSize sizes a.tempStorageSize = some sz →
      CudaRadixSortPairsGen
          (cubSizingOracle ExtSortPairsCall.tempStorage sizeFn exec)
          descending a sizes bufs =
        some (0, writeSize sizes a.tempStorageSize
            (sizeFn (mkSortPairsCall descending a sz)), bufs,
          [mkSortPairsCall descending a sz]) ∧
      writeSize sizes a.tempStorageSize
          (sizeFn (mkSortPairsCall descending a sz)) a.tempStorageSize =
        some (sizeFn (mkSortPairsCall descending a sz)) ∧
      0 < sizeFn (mkSortPairsCall descending a sz)) ∧
    (∀ (sizeFn : ExtSegSortCall → Nat)
        (exec : ExtSegSortCall → BufHeap → Int × Nat × BufHeap)
        (descending : Bool) (a : SegSortArgs) (sizes : SizeHeap)
        (bufs : BufHeap) (sz : Nat),
      (∀ c : ExtSegSortCall, 0 < c.numElements → 0 < sizeFn c) →
      a.tempStorage = 0 → 0 < a.numElements →
      derefSize sizes a.tempStorageSize = some sz →
      CudaSegmentedRadixSortGen
          (cubSizingOracle ExtSegSortCall.tempStorage sizeFn exec)
          descending a sizes bufs =
        some (0, writeSize sizes a.tempStorageSize
            (sizeFn (mkSegSortCall descending a sz)), bufs,
          [mkSegSortCall descending a sz]) ∧
      writeSize sizes a.tempStorageSize
          (sizeFn (mkSegSortCall descending a sz)) a.tempStorageSize =
        some (sizeFn (mkSegSortCall descending a sz)) ∧
      0 < sizeFn (mkSegSortCall descending a sz)) ∧
    (∀ (sizeFn : ExtSegSortPairsCall → Nat)
        (exec : ExtSegSortPairsCall → BufHeap → Int × Nat × BufHeap)
        (descending : Bool) (a : SegSortPairsArgs) (sizes : SizeHeap)
        (bufs : BufHeap) (sz : Nat),
      (∀ c : ExtSegSortPairsCall, 0 < c.numElements → 0 < sizeFn c) →
      a.tempStorage = 0 → 0 < a.numElements →
      derefSize sizes a.tempStorageSize = some sz →
      CudaSegmentedRadixSortPairsGen
          (cubSizingOracle ExtSegSortPairsCall.tempStorage sizeFn exec)
          descending a sizes bufs =
        some (0, writeSize sizes a.tempStorageSize
            (sizeFn (mkSegSortPairsCall descending a sz)), bufs,
          [mkSegSortPairsCall descending a sz]) ∧
      writeSize sizes a.tempStorageSize
          (sizeFn (mkSegSortPairsCall descending a sz)) a.tempStorageSize =
        some (sizeFn (mkSegSortPairsCall descending a sz)) ∧
      0 < sizeFn (mkSegSortPairsCall descending a sz)) := by
  refine ⟨?_, ?_, ?_, ?_⟩ <;>
    · intro sizeFn exec descending a sizes bufs sz hpos h0 hn hde
      refine ⟨?_, by simp [writeSize], hpos _ hn⟩
      simp [CudaRadixSortGen, CudaRadixSortPairsGen, CudaSegmentedRadixSortGen,
        CudaSegmentedRadixSortPairsGen, hde, cubSizingOracle, mkSortCall,
        mkSortPairsCall, mkSegSortCall, mkSegSortPairsCall, h0]

/-- C5 witness: sizing query on the concrete fixtures (null scratch
pointer, five elements, constant required size 8) succeeds with status 0
and an untouched buffer heap, for all four sort families. -/
theorem sizing_query_mode_succeeds_witness :
    (CudaRadixSortGen (cubSizingOracle ExtSortCall.tempStorage (fun _ => 8)
        (fun _ bufs => (0, 0, bufs))) false demoSortArgs demoSizes demoBufs =
      some (0, writeSize demoSizes 1 8, demoBufs,
        [mkSortCall false demoSortArgs 0]) ∧
      writeSize demoSizes 1 8 1 = some 8 ∧ (0 : Nat) < 8) ∧
    (CudaRadixSortPairsGen (cubSizingOracle ExtSortPairsCall.tempStorage
        (fun _ => 8) (fun _ bufs => (0, 0, bufs))) false demoSortPairsArgs
        demoSizes demoBufs =
      some (0, writeSize demoSizes 1 8, demoBufs,
        [mkSortPairsCall false demoSortPairsArgs 0]) ∧
      writeSize demoSizes 1 8 1 = some 8 ∧ (0 : Nat) < 8) ∧
    (CudaSegmentedRadixSortGen (cubSizingOracle ExtSegSortCall.tempStorage
        (fun _ => 8) (fun _ bufs => (0, 0, bufs))) false demoSegSortArgs
        demoSizes demoBufs =
      some (0, writeSize demoSizes 1 8, demoBufs,
        [mkSegSortCall false demoSegSortArgs 0]) ∧
      writeSize demoSizes 1 8 1 = some 8 ∧ (0 : Nat) < 8) ∧
    (CudaSegmentedRadixSortPairsGen
        (cubSizingOracle ExtSegSortPairsCall.tempStorage (fun _ => 8)
          (fun _ bufs => (0, 0, bufs))) false demoSegSortPairsArgs demoSizes
        demoBufs =
      some (0, writeSize demoSizes 1 8, demoBufs,
        [mkSegSortPairsCall false demoSegSortPairsArgs 0]) ∧
      writeSize demoSizes 1 8 1 = some 8 ∧ (0 : Nat) < 8) := by
  have h := sizing_query_mode_succeeds
  exact ⟨h.1 (fun _ => 8) (fun _ bufs => (0, 0, bufs)) false demoSortArgs
      demoSizes demoBufs 0 (fun _ _ => Nat.succ_pos 7) rfl (by decide) rfl,
    h.2.1 (fun _ => 8) (fun _ bufs => (0, 0, bufs)) false demoSortPairsArgs
      demoSizes demoBufs 0 (fun _ _ => Nat.succ_pos 7) rfl (by decide) rfl,
    h.2.2.1 (fun _ => 8) (fun _ bufs => (0, 0, bufs)) false demoSegSortArgs
      demoSizes demoBufs 0 (fun _ _ => Nat.succ_pos 7) rfl (by decide) rfl,
    h.2.2.2 (fun _ => 8) (fun _ bufs => (0, 0, bufs)) false
      demoSegSortPairsArgs demoSizes demoBufs 0 (fun _ _ => Nat.succ_pos 7) rfl
      (by decide) rfl⟩

/-- C6: for every sort family, the descending export builds exactly the
same external argument record as its ascending counterpart; the two calls
differ only in the `descending` primitive selection (the
`Descending`-suffixed external name). -/
theorem descending_variant_same_arguments :
    (∀ (a : SortArgs) (sz : Nat),
      mkSortCall true a sz = { mkSortCall false a sz with descending := true } ∧
      (mkSortCall false a sz).descending = false ∧
      (mkSortCall true a sz).descending = true) ∧
    (∀ (a : SortPairsArgs) (sz : Nat),
      mkSortPairsCall true a sz =
        { mkSortPairsCall false a sz with descending := true } ∧
      (mkSortPairsCall false a sz).descending = false ∧
      (mkSortPairsCall true a sz).descending = true) ∧
    (∀ (a : SegSortArgs) (sz : Nat),
      mkSegSortCall true a sz =
        { mkSegSortCall false a sz with descending := true } ∧
      (mkSegSortCall false a sz).descending = false ∧
      (mkSegSortCall true a sz).descending = true) ∧
    (∀ (a : SegSortPairsArgs) (sz : Nat),
      mkSegSortPairsCall true a sz =
        { mkSegSortPairsCall false a sz with descending := true } ∧
      (mkSegSortPairsCall false a sz).descending = false ∧
      (mkSegSortPairsCall true a sz).descending = true) :=
  ⟨fun _ _ => ⟨rfl, rfl, rfl⟩, fun _ _ => ⟨rfl, rfl, rfl⟩,
   fun _ _ => ⟨rfl, rfl, rfl⟩, fun _ _ => ⟨rfl, rfl, rfl⟩⟩

/-- C9: the scan exports declare their element count as `uint32_t` but
forward it through a signed 32-bit cast, so any count in the upper half of
the 32-bit range reaches the external primitive as the negative value
`count - 2^32`; counts below `2^31` and every sort-export count (declared
`int32_t`) are forwarded value-identically. -/
theorem scan_count_cast_signed :
    (∀ (a : ScanArgs) (inclusive : Bool) (sz : Nat),
      2 ^ 31 ≤ a.numElements → a.numElements < 2 ^ 32 →
      (mkScanCall inclusive a sz).numElements =
        (a.numElements : Int) - 2 ^ 32 ∧
      (mkScanCall inclusive a sz).numElements < 0) ∧
    (∀ (a : ScanArgs) (inclusive : Bool) (sz : Nat),
      a.numElements < 2 ^ 31 →
      (mkScanCall inclusive a sz).numElements = (a.numElements : Int)) ∧
    (∀ (a : SortArgs) (descending : Bool) (sz : Nat),
      (mkSortCall descending a sz).numElements = a.numElements) := by
  refine ⟨fun a inclusive sz hlo hhi => ?_, fun a inclusive sz hlt => ?_,
    fun _ _ _ => rfl⟩
  · have hcast : (mkScanCall inclusive a sz).numElements =
        (a.numElements : Int) - 2 ^ 32 := by
      show intOfUInt32 a.numElements = (a.numElements : Int) - 2 ^ 32
      unfold intOfUInt32
      rw [if_neg (by omega)]
    refine ⟨hcast, ?_⟩
    rw [hcast]
    have : (a.numElements : Int) < 2 ^ 32 := by exact_mod_cast hhi
    omega
  · show intOfUInt32 a.numElements = (a.numElements : Int)
    unfold intOfUInt32
    rw [if_pos hlt]

/-- C9 witness: a scan count of `2^31` reaches the external primitive as
`-2^31`, while the sort count 5 is forwarded as 5. -/
theorem scan_count_cast_signed_witness :
    (mkScanCall false { demoScanArgs with numElements := 2 ^ 31 } 0).numElements
      = -(2 ^ 31) ∧
    (mkSortCall false demoSortArgs 0).numElements = 5 := by
  have h := scan_count_cast_signed.1 { demoScanArgs with numElements := 2 ^ 31 }
    false 0 (by norm_num) (by norm_num)
  refine ⟨?_, scan_count_cast_signed.2.2 demoSortArgs false 0⟩
  rw [h.1]
  norm_num

/-- C10: the segmented exports forward by a fixed permutation, not a
positional copy: the export signature lists `numElements, beginOffsets,
endOffsets, numSegments` while the external primitive receives
`numElements, numSegments, beginOffsets, endOffsets`; every other
positional argument is forwarded in place, and every value is unchanged. -/
theorem segmented_forwarding_permutation :
    (∀ (descending : Bool) (a : SegSortArgs) (sz : Nat),
      (segSortExtArgs (mkSegSortCall descending a sz)).length = 11 ∧
      (segSortSigArgs a).length = 11 ∧
      (segSortExtArgs (mkSegSortCall descending a sz))[4]? =
        (segSortSigArgs a)[4]? ∧
      (segSortExtArgs (mkSegSortCall descending a sz))[5]? =
        (segSortSigArgs a)[7]? ∧
      (segSortExtArgs (mkSegSortCall descending a sz))[6]? =
        (segSortSigArgs a)[5]? ∧
      (segSortExtArgs (mkSegSortCall descending a sz))[7]? =
        (segSortSigArgs a)[6]? ∧
      (segSortExtArgs (mkSegSortCall descending a sz))[0]? =
        (segSortSigArgs a)[0]? ∧
      (segSortExtArgs (mkSegSortCall descending a sz))[2]? =
        (segSortSigArgs a)[2]? ∧
      (segSortExtArgs (mkSegSortCall descending a sz))[3]? =
        (segSortSigArgs a)[3]? ∧
      (segSortExtArgs (mkSegSortCall descending a sz))[8]? =
        (segSortSigArgs a)[8]? ∧
      (segSortExtArgs (mkSegSortCall descending a sz))[9]? =
        (segSortSigArgs a)[9]? ∧
      (segSortExtArgs (mkSegSortCall descending a sz))[10]? =
        (segSortSigArgs a)[10]?) ∧
    (∀ (descending : Bool) (a : SegSortPairsArgs) (sz : Nat),
      (segSortPairsExtArgs (mkSegSortPairsCall descending a sz)).length = 13 ∧
      (segSortPairsSigArgs a).length = 13 ∧
      (segSortPairsExtArgs (mkSegSortPairsCall descending a sz))[6]? =
        (segSortPairsSigArgs a)[6]? ∧
      (segSortPairsExtArgs (mkSegSortPairsCall descending a sz))[7]? =
        (segSortPairsSigArgs a)[9]? ∧
      (segSortPairsExtArgs (mkSegSortPairsCall descending a sz))[8]? =
        (segSortPairsSigArgs a)[7]? ∧
      (segSortPairsExtArgs (mkSegSortPairsCall descending a sz))[9]? =
        (segSortPairsSigArgs a)[8]? ∧
      (segSortPairsExtArgs (mkSegSortPairsCall descending a sz))[0]? =
        (segSortPairsSigArgs a)[0]? ∧
      (segSortPairsExtArgs (mkSegSortPairsCall descending a sz))[2]? =
        (segSortPairsSigArgs a)[2]? ∧
      (segSortPairsExtArgs (mkSegSortPairsCall descending a sz))[3]? =
        (segSortPairsSigArgs a)[3]? ∧
      (segSortPairsExtArgs (mkSegSortPairsCall descending a sz))[4]? =
        (segSortPairsSigArgs a)[4]? ∧
      (segSortPairsExtArgs (mkSegSortPairsCall descending a sz))[5]? =
        (segSortPairsSigArgs a)[5]? ∧
      (segSortPairsExtArgs (mkSegSortPairsCall descending a sz))[10]? =
        (segSortPairsSigArgs a)[10]? ∧
      (segSortPairsExtArgs (mkSegSortPairsCall descending a sz))[11]? =
        (segSortPairsSigArgs a)[11]? ∧
      (segSortPairsExtArgs (mkSegSortPairsCall descending a sz))[12]? =
        (segSortPairsSigArgs a)[12]?) :=
  ⟨fun _ _ _ => ⟨rfl, rfl, rfl, rfl, rfl, rfl, rfl, rfl, rfl, rfl, rfl, rfl⟩,
   fun _ _ _ =>
    ⟨rfl, rfl, rfl, rfl, rfl, rfl, rfl, rfl, rfl, rfl, rfl, rfl, rfl, rfl⟩⟩

/-- C8: the bridge validates nothing before forwarding. Every
primitive-operation export dereferences the scratch-size pointer
unconditionally — with a null scratch-size pointer the dereference faults
(undefined behavior) even in sizing-query mode, for any external oracle —
while null buffer pointers are forwarded into the external call untouched
and the call still happens; the deployment-preparation entry point runs
its pipeline even for a null entry handle. No branch of any export
produces a bridge-made error. -/
theorem bridge_adds_no_guards :
    (∀ (cubSort : SortOracle) (descending : Bool) (a : SortArgs)
        (sizes : SizeHeap) (bufs : BufHeap),
      a.tempStorageSize = 0 →
      CudaRadixSortGen cubSort descending a sizes bufs = none) ∧
    (∀ (cubSort : SortPairsOracle) (descending : Bool) (a : SortPairsArgs)
        (sizes : SizeHeap) (bufs : BufHeap),
      a.tempStorageSize = 0 →
      CudaRadixSortPairsGen cubSort descending a sizes bufs = none) ∧
    (∀ (cubSort : SegSortOracle) (descending : Bool) (a : SegSortArgs)
        (sizes : SizeHeap) (bufs : BufHeap),
      a.tempStorageSize = 0 →
      CudaSegmentedRadixSortGen cubSort descending a sizes bufs = none) ∧
    (∀ (cubSort : SegSortPairsOracle) (descending : Bool)
        (a : SegSortPairsArgs) (sizes : SizeHeap) (bufs : BufHeap),
      a.tempStorageSize = 0 →
      CudaSegmentedRadixSortPairsGen cubSort descending a sizes bufs = none) ∧
    (∀ (cubScan : ScanOracle) (inclusive : Bool) (a : ScanArgs)
        (sizes : SizeHeap) (bufs : BufHeap),
      a.tempStorageSize = 0 →
      CudaScanGen cubScan inclusive a sizes bufs = none) ∧
    (∀ (cubSort : SortOracle) (descending : Bool) (a : SortArgs)
        (sizes : SizeHeap) (bufs : BufHeap) (sz : Nat),
      derefSize sizes a.tempStorageSize = some sz →
      a.source = 0 → a.target = 0 → a.tempStorage = 0 →
      (CudaRadixSortGen cubSort descending a sizes bufs).isSome = true ∧
      (mkSortCall descending a sz).source = 0 ∧
      (mkSortCall descending a sz).target = 0 ∧
      (mkSortCall descending a sz).tempStorage = 0) ∧
    (∀ (cubScan : ScanOracle) (inclusive : Bool) (a : ScanArgs)
        (sizes : SizeHeap) (bufs : BufHeap) (sz : Nat),
      derefSize sizes a.tempStorageSize = some sz →
      a.source = 0 → a.target = 0 →
      (CudaScanGen cubScan inclusive a sizes bufs).isSome = true ∧
      (mkScanCall inclusive a sz).source = 0 ∧
      (mkScanCall inclusive a sz).target = 0) ∧
    (∀ (β : Type) (I : PassInterp β) (m : ModuleState β) (ftz fm : LLVMBool),
      ILGPU_PreparePTXModule I m 0 ftz fm =
        I.reflectRun (nvvmReflectMapping ftz fm)
          (I.globalDCERun (I.internalizeRun (internalizePredicate 0) m))) := by
  refine ⟨?_, ?_, ?_, ?_, ?_, ?_, ?_, fun _ _ _ _ _ => rfl⟩
  · intro cub d a sizes bufs h
    simp [CudaRadixSortGen, derefSize, h]
  · intro cub d a sizes bufs h
    simp [CudaRadixSortPairsGen, derefSize, h]
  · intro cub d a sizes bufs h
    simp [CudaSegmentedRadixSortGen, derefSize, h]
  · intro cub d a sizes bufs h
    simp [CudaSegmentedRadixSortPairsGen, derefSize, h]
  · intro cub d a sizes bufs h
    simp [CudaScanGen, derefSize, h]
  · intro cub d a sizes bufs sz hde hs ht h0
    exact ⟨by simp [CudaRadixSortGen, hde], hs, ht, h0⟩
  · intro cub d a sizes bufs sz hde hs ht
    exact ⟨by simp [CudaScanGen, hde], hs, ht⟩

/-- C8 witness: a null scratch-size pointer faults the sort and scan
exports on concrete fixtures; null source/target buffers are still
forwarded into a performed external call; the deployment-preparation
runner runs on a null entry handle. -/
theorem bridge_adds_no_guards_witness :
    CudaRadixSortGen demoSortOracle false
      { demoSortArgs with tempStorageSize := 0 } demoSizes demoBufs = none ∧
    CudaScanGen demoScanOracle false
      { demoScanArgs with tempStorageSize := 0 } demoSizes demoBufs = none ∧
    (CudaRadixSortGen demoSortOracle false
      { demoSortArgs with source := 0, target := 0 } demoSizes
      demoBufs).isSome = true ∧
    ILGPU_PreparePTXModule demoInterp demoModule 0 1 1 = demoModule := by
  have h := bridge_adds_no_guards
  refine ⟨h.1 demoSortOracle false _ demoSizes demoBufs rfl,
    h.2.2.2.2.1 demoScanOracle false _ demoSizes demoBufs rfl,
    (h.2.2.2.2.2.1 demoSortOracle false
      { demoSortArgs with source := 0, target := 0 } demoSizes demoBufs 0
      rfl rfl rfl rfl).1, ?_⟩
  have hp := h.2.2.2.2.2.2.2 Nat demoInterp demoModule 1 1
  simpa [demoInterp] using hp

end ILGPU
